import Mathlib

/-!
Verification of the Account CRUD microservice (Flask `service/routes.py`)
against its design specification, via a shallow embedding.

The route handlers present in `service/routes.py` (`create_accounts`,
`read_account`, `update_products`, `check_content_type`) are translated
directly from the source.  The entity mapper `Account` (its
`find` / `create` / `update` / `delete` / `deserialize` / `serialize`
methods live in `service/models.py`, which is not part of the analysed
sources), the JSON error bodies produced by the error handlers in
`service/common`, and the LIST and DELETE route handlers (left as stubs
in `service/routes.py`) are modelled from the specification, as marked
in their doc comments.

Dates are represented as ISO strings; the current date at the time of a
create request is passed in explicitly (`today`).  Machine concerns of
the web framework (routing itself, header casing, logging) are outside
the embedding; a request reaching a handler carries its integer path id,
its `Content-Type` header (`Option String`, `none` when absent) and its
parsed JSON body.
-/

namespace AccountService

/-- ASCII apostrophe, written via its code point. -/
def sq : String := String.singleton (Char.ofNat 39)

/-- The Account entity: the in-memory representation handled by the
entity mapper.  `date_joined` is `none` only before persistence
(`Account()` freshly constructed); the store keeps it set. -/
structure Account where
  id : Nat
  name : String
  email : String
  address : String
  phone_number : Option String
  date_joined : Option String
deriving DecidableEq, Repr

/-- A freshly constructed `Account()` before deserialization. -/
def Account.empty : Account :=
  { id := 0, name := "", email := "", address := "",
    phone_number := none, date_joined := none }

/-- A parsed JSON request body for an Account, as a flat mapping:
each attribute is present (`some`) or absent (`none`). -/
structure Payload where
  name : Option String
  email : Option String
  address : Option String
  phone_number : Option String
  date_joined : Option String
deriving DecidableEq, Repr

/-- Modelled from the spec: `deserialize(json_object)` populates fields
from a mapping and fails with a ValidationError message if a required
field (`name`, `email`, `address`) is missing (`service/models.py` is
not among the analysed sources).  Fields absent from the mapping keep
their current values; `id` is never taken from the body. -/
def Account.deserialize (a : Account) (p : Payload) : Except String Account :=
  match p.name with
  | none => Except.error "Invalid Account: missing name"
  | some n =>
    match p.email with
    | none => Except.error "Invalid Account: missing email"
    | some e =>
      match p.address with
      | none => Except.error "Invalid Account: missing address"
      | some ad =>
        Except.ok { a with
          name := n, email := e, address := ad,
          phone_number := match p.phone_number with
            | some s => some s
            | none => a.phone_number,
          date_joined := match p.date_joined with
            | some d => some d
            | none => a.date_joined }

/-- The persistence store: the Account table plus its auto-increment
counter for the primary key. -/
structure DB where
  accounts : List Account
  nextId : Nat
deriving DecidableEq, Repr

/-- Modelled from the spec: `find(id)` looks up by primary key and
returns an explicit absent signal (`service/models.py` is not among the
analysed sources). -/
def DB.find (db : DB) (i : Nat) : Option Account :=
  db.accounts.find? (fun a => a.id == i)

/-- Modelled from the spec: `create(Account)` assigns a new unique `id`
from the auto-increment counter, defaults `date_joined` to the creation
date if absent, and persists the row (`service/models.py` is not among
the analysed sources).  Returns the persisted entity and the new store. -/
def DB.create (db : DB) (a : Account) (today : String) : Account × DB :=
  let a2 := { a with id := db.nextId,
                     date_joined := some (a.date_joined.getD today) }
  (a2, { accounts := db.accounts ++ [a2], nextId := db.nextId + 1 })

/-- Modelled from the spec: `update(Account)` persists the current
in-memory field values over the existing row matched by `id`
(`service/models.py` is not among the analysed sources). -/
def DB.update (db : DB) (a : Account) : DB :=
  { db with accounts := db.accounts.map (fun b => if b.id == a.id then a else b) }

/-- Modelled from the spec: `delete` removes the row matched by the id;
removing an already-absent row is not an error (`service/models.py` is
not among the analysed sources). -/
def DB.erase (db : DB) (i : Nat) : DB :=
  { db with accounts := db.accounts.filter (fun a => !(a.id == i)) }

/-- Modelled from the spec: `all()` returns every row, no pagination
(`service/models.py` is not among the analysed sources). -/
def DB.all (db : DB) : List Account :=
  db.accounts

/-- An HTTP response body.  `jsonAccount` stands for the flat JSON
serialization of one Account (all attributes, `date_joined` as an ISO
string); `jsonList` for a JSON array of such serializations; `errorJson`
for the JSON error body `\x7b"message": ...\x7d` that the error handlers
in `service/common` (modelled from the spec, not among the analysed
sources) attach to 4xx responses. -/
inductive Body where
  | jsonAccount : Account → Body
  | jsonList : List Account → Body
  | errorJson : String → Body
  | empty : Body
deriving DecidableEq, Repr

/-- An HTTP response: status code, body, and the `Location` header when
the handler sets one. -/
structure Response where
  status : Nat
  body : Body
  location : Option String
deriving DecidableEq, Repr

/-- From `service/routes.py` (`check_content_type`): the header passes
only when it is present, truthy (Python: a non-empty string) and equal
to the expected media type by exact string comparison. -/
def check_content_type (contentType : Option String) (mediaType : String) : Bool :=
  match contentType with
  | none => false
  | some c => !(c == "") && (c == mediaType)

/-- The 415 response `check_content_type` aborts with. -/
def unsupportedMediaType (mediaType : String) : Response :=
  { status := 415,
    body := Body.errorJson ("Content-Type must be " ++ mediaType),
    location := none }

/-- The message of the 404 abort in `read_account` and
`update_products`: the f-string interpolating the requested id between
apostrophes. -/
def notFoundMsg (i : Nat) : String :=
  "Account with id " ++ sq ++ toString i ++ sq ++ " was not found."

/-- The 404 response for a missing account id. -/
def notFound (i : Nat) : Response :=
  { status := 404, body := Body.errorJson (notFoundMsg i), location := none }

/-- From `service/routes.py` (`create_accounts`): checks the content
type, deserializes the posted body into a fresh `Account()`, creates it,
and answers 201 with the serialized entity and a `Location` header of
`"/"`.  A deserialization failure surfaces as 400 (error handler
modelled from the spec). -/
def create_accounts (db : DB) (contentType : Option String) (p : Payload)
    (today : String) : Response × DB :=
  if !(check_content_type contentType "application/json") then
    (unsupportedMediaType "application/json", db)
  else
    match Account.empty.deserialize p with
    | Except.error m =>
        ({ status := 400, body := Body.errorJson m, location := none }, db)
    | Except.ok a =>
        let (a2, db2) := db.create a today
        ({ status := 201, body := Body.jsonAccount a2, location := some "/" }, db2)

/-- Modelled from the spec: the LIST ALL ACCOUNTS handler, left as a
stub in `service/routes.py`; §4.2 makes the table the intended
contract: `GET /accounts` answers 200 with a JSON array of all
Accounts, no pagination.  Reads only, so it returns just the response. -/
def list_accounts (db : DB) : Response :=
  { status := 200, body := Body.jsonList db.all, location := none }

/-- From `service/routes.py` (`read_account`): finds the account by id,
aborts 404 with the interpolated message when absent, otherwise answers
200 with the serialized account. -/
def read_account (db : DB) (i : Nat) : Response :=
  match db.find i with
  | none => notFound i
  | some a => { status := 200, body := Body.jsonAccount a, location := none }

/-- From `service/routes.py` (`update_products`, the PUT handler):
checks the content type first, then looks up the id and aborts 404 when
absent, then deserializes the body over the found account, forces
`account.id = id`, updates the store and answers 200 with the
serialized account.  A deserialization failure surfaces before
`update()` as 400 (error handler modelled from the spec). -/
def update_products (db : DB) (i : Nat) (contentType : Option String)
    (p : Payload) : Response × DB :=
  if !(check_content_type contentType "application/json") then
    (unsupportedMediaType "application/json", db)
  else
    match db.find i with
    | none => (notFound i, db)
    | some a =>
      match a.deserialize p with
      | Except.error m =>
          ({ status := 400, body := Body.errorJson m, location := none }, db)
      | Except.ok a2 =>
          let a3 := { a2 with id := i }
          ({ status := 200, body := Body.jsonAccount a3, location := none },
           db.update a3)

/-- Modelled from the spec: the DELETE AN ACCOUNT handler, left as a
stub in `service/routes.py`; §4.2 makes the table the intended
contract: `DELETE /accounts/<id>` removes the row when present and
answers 204 with an empty body either way (idempotent). -/
def delete_accounts (db : DB) (i : Nat) : Response × DB :=
  ({ status := 204, body := Body.empty, location := none }, db.erase i)

/-! Helper lemmas about the store operations. -/

/-- After erasing id `i`, a lookup of `i` finds nothing. -/
theorem DB.find_erase_eq_none (db : DB) (i : Nat) :
    (db.erase i).find i = none := by
  rw [DB.erase, DB.find, List.find?_eq_none]
  intro a ha
  have h := List.mem_filter.mp ha
  simpa using h.2

/-- The passing case of the content-type check. -/
theorem check_content_type_app_json :
    check_content_type (some "application/json") "application/json" = true := by
  decide

/-- The failing case of the content-type check: any header other than
exactly `application/json`, absent included, fails. -/
theorem check_content_type_ne (ct : Option String)
    (h : ct ≠ some "application/json") :
    check_content_type ct "application/json" = false := by
  cases ct with
  | none => rfl
  | some c =>
    have hc : c ≠ "application/json" := fun hc => h (by rw [hc])
    have hb : (c == "application/json") = false := by simpa using hc
    simp [check_content_type, hb]

/-- Replacing every row whose id matches `u.id` by `u` keeps `u`
findable under id `i` when `u.id = i` and some row matched `i`. -/
theorem find?_update_of_found (l : List Account) (i : Nat) (u a : Account)
    (hu : u.id = i) (h : l.find? (fun b => b.id == i) = some a) :
    (l.map (fun b => if b.id == u.id then u else b)).find?
      (fun b => b.id == i) = some u := by
  induction l with
  | nil => simp at h
  | cons b l ih =>
    by_cases hb : (b.id == i) = true
    · have hbu : (b.id == u.id) = true := by rw [hu]; exact hb
      have hui : (u.id == i) = true := by simp [hu]
      simp [hbu, hui, List.find?]
    · have hb' : (b.id == i) = false := by simpa using hb
      have hbu : (b.id == u.id) = false := by rw [hu]; exact hb'
      rw [List.find?_cons_of_neg _ (by simp [hb'])] at h
      have hif : (if b.id == u.id then u else b) = b := if_neg (by simp [hbu])
      have hmap : (b :: l).map (fun c => if c.id == u.id then u else c)
          = b :: l.map (fun c => if c.id == u.id then u else c) := by
        rw [List.map_cons, hif]
      rw [hmap, List.find?_cons_of_neg _ (by simp [hb'])]
      exact ih h

/-! The claims. -/

/-- C1: for every state of the store, `GET /accounts` answers 200 with
a JSON array holding every stored Account, without pagination. -/
theorem list_accounts_returns_all_accounts (db : DB) :
    list_accounts db
      = { status := 200, body := Body.jsonList db.accounts, location := none } :=
  rfl

/-- C2: `DELETE /accounts/<i>` answers 204 with an empty body for every
id, existing or not; repeating the delete answers 204 again; and after
the delete, `GET /accounts/<i>` answers 404. -/
theorem delete_accounts_idempotent_then_read_404 (db : DB) (i : Nat) :
    delete_accounts db i
      = ({ status := 204, body := Body.empty, location := none }, db.erase i)
    ∧ (delete_accounts (delete_accounts db i).2 i).1
      = { status := 204, body := Body.empty, location := none }
    ∧ read_account (delete_accounts db i).2 i
      = { status := 404, body := Body.errorJson (notFoundMsg i),
          location := none } := by
  refine ⟨rfl, rfl, ?_⟩
  rw [read_account]
  rw [show (delete_accounts db i).2 = db.erase i from rfl,
      DB.find_erase_eq_none]
  rfl

/-- C3: a PUT with the right content type on an existing account with a
valid body answers 200 with the updated account JSON; the submitted
fields take the submitted values, the unsubmitted optional fields keep
the stored values, the id stays `i`, and the stored row after the
update is that account, still found under id `i`. -/
theorem update_products_updates_submitted_fields_preserving_id (db : DB)
    (i : Nat) (a : Account) (p : Payload) (n e ad : String)
    (hfind : db.find i = some a) (hn : p.name = some n)
    (he : p.email = some e) (had : p.address = some ad) :
    ∃ u : Account,
      update_products db i (some "application/json") p
        = ({ status := 200, body := Body.jsonAccount u, location := none },
           db.update u)
      ∧ u.id = i ∧ u.name = n ∧ u.email = e ∧ u.address = ad
      ∧ (p.phone_number = none → u.phone_number = a.phone_number)
      ∧ (∀ s, p.phone_number = some s → u.phone_number = some s)
      ∧ (p.date_joined = none → u.date_joined = a.date_joined)
      ∧ (∀ d, p.date_joined = some d → u.date_joined = some d)
      ∧ (db.update u).find i = some u := by
  refine ⟨{ id := i, name := n, email := e, address := ad,
            phone_number := (match p.phone_number with
              | some s => some s
              | none => a.phone_number),
            date_joined := (match p.date_joined with
              | some d => some d
              | none => a.date_joined) }, ?_, rfl, rfl, rfl, rfl,
    ?_, ?_, ?_, ?_, ?_⟩
  · rw [update_products, check_content_type_app_json]
    simp [hfind, Account.deserialize, hn, he, had]
  · intro hpn; rw [hpn]
  · intro s hpn; rw [hpn]
  · intro hdj; rw [hdj]
  · intro d hdj; rw [hdj]
  · exact find?_update_of_found db.accounts i _ a rfl hfind

/-- Witness for C3: updating the name of the stored account with id 1,
leaving phone and join date unsubmitted. -/
theorem update_products_updates_submitted_fields_preserving_id_witness :
    DB.find ⟨[⟨1, "n", "e", "a", some "p", some "2020-01-01"⟩], 2⟩ 1
      = some ⟨1, "n", "e", "a", some "p", some "2020-01-01"⟩
    ∧ ∃ u : Account,
      update_products ⟨[⟨1, "n", "e", "a", some "p", some "2020-01-01"⟩], 2⟩ 1
          (some "application/json") ⟨some "John Doe", some "e2", some "a2", none, none⟩
        = ({ status := 200, body := Body.jsonAccount u, location := none },
           DB.update ⟨[⟨1, "n", "e", "a", some "p", some "2020-01-01"⟩], 2⟩ u)
      ∧ u.id = 1 ∧ u.name = "John Doe" ∧ u.email = "e2" ∧ u.address = "a2"
      ∧ ((⟨some "John Doe", some "e2", some "a2", none, none⟩ : Payload).phone_number = none
          → u.phone_number = some "p")
      ∧ (∀ s, (⟨some "John Doe", some "e2", some "a2", none, none⟩ : Payload).phone_number = some s
          → u.phone_number = some s)
      ∧ ((⟨some "John Doe", some "e2", some "a2", none, none⟩ : Payload).date_joined = none
          → u.date_joined = some "2020-01-01")
      ∧ (∀ d, (⟨some "John Doe", some "e2", some "a2", none, none⟩ : Payload).date_joined = some d
          → u.date_joined = some d)
      ∧ (DB.update ⟨[⟨1, "n", "e", "a", some "p", some "2020-01-01"⟩], 2⟩ u).find 1
        = some u :=
  ⟨rfl, update_products_updates_submitted_fields_preserving_id
    ⟨[⟨1, "n", "e", "a", some "p", some "2020-01-01"⟩], 2⟩ 1
    ⟨1, "n", "e", "a", some "p", some "2020-01-01"⟩
    ⟨some "John Doe", some "e2", some "a2", none, none⟩
    "John Doe" "e2" "a2" rfl rfl rfl rfl⟩

/-- C4: a PUT with the right content type on a nonexistent id answers
404 and leaves the store unchanged: the lookup short-circuits before
any mutating call, so no row is created. -/
theorem update_products_missing_id_404_store_unchanged (db : DB) (i : Nat)
    (p : Payload) (h : db.find i = none) :
    update_products db i (some "application/json") p
      = ({ status := 404, body := Body.errorJson (notFoundMsg i),
           location := none }, db) := by
  rw [update_products, check_content_type_app_json]
  simp [h, notFound]

/-- Witness for C4 on a concrete empty store and id 7. -/
theorem update_products_missing_id_404_store_unchanged_witness :
    DB.find ⟨[], 1⟩ 7 = none
    ∧ update_products ⟨[], 1⟩ 7 (some "application/json")
        ⟨some "n", some "e", some "a", none, none⟩
      = ({ status := 404, body := Body.errorJson (notFoundMsg 7),
           location := none }, ⟨[], 1⟩) :=
  ⟨rfl, update_products_missing_id_404_store_unchanged ⟨[], 1⟩ 7
    ⟨some "n", some "e", some "a", none, none⟩ rfl⟩

/-- C5: a POST whose Content-Type header is absent or is any string
other than exactly application/json answers 415 with a descriptive
message, for every body, and leaves the store untouched. -/
theorem create_accounts_wrong_content_type_415 (db : DB)
    (ct : Option String) (p : Payload) (today : String)
    (h : ct ≠ some "application/json") :
    create_accounts db ct p today
      = ({ status := 415,
           body := Body.errorJson "Content-Type must be application/json",
           location := none }, db) := by
  rw [create_accounts, check_content_type_ne ct h]
  rfl

/-- Witness for C5 with a text/html header and a fully valid body. -/
theorem create_accounts_wrong_content_type_415_witness :
    some "text/html" ≠ some "application/json"
    ∧ create_accounts ⟨[], 1⟩ (some "text/html")
        ⟨some "n", some "e", some "a", some "p", some "2020-01-01"⟩ "2020-01-02"
      = ({ status := 415,
           body := Body.errorJson "Content-Type must be application/json",
           location := none }, ⟨[], 1⟩) :=
  ⟨by decide, create_accounts_wrong_content_type_415 ⟨[], 1⟩ (some "text/html")
    ⟨some "n", some "e", some "a", some "p", some "2020-01-01"⟩ "2020-01-02"
    (by decide)⟩

/-- C6: a GET on an id that is not in the store answers 404 with a JSON
error body whose message embeds the requested id between apostrophes
(the character sq) in the exact f-string of the source. -/
theorem read_account_missing_id_404_message (db : DB) (i : Nat)
    (h : db.find i = none) :
    read_account db i
      = { status := 404,
          body := Body.errorJson
            ("Account with id " ++ sq ++ toString i ++ sq ++ " was not found."),
          location := none } := by
  rw [read_account, h]
  rfl

/-- Witness for C6 on a store holding one account with a different id. -/
theorem read_account_missing_id_404_message_witness :
    DB.find ⟨[⟨1, "n", "e", "a", none, some "2020-01-01"⟩], 2⟩ 42 = none
    ∧ read_account ⟨[⟨1, "n", "e", "a", none, some "2020-01-01"⟩], 2⟩ 42
      = { status := 404,
          body := Body.errorJson
            ("Account with id " ++ sq ++ "42" ++ sq ++ " was not found."),
          location := none } :=
  ⟨by decide, read_account_missing_id_404_message
    ⟨[⟨1, "n", "e", "a", none, some "2020-01-01"⟩], 2⟩ 42 (by decide)⟩

/-- C8: a PUT whose Content-Type header is absent or differs from
application/json answers 415 for every store, id and body: the check
runs before the existence lookup, so 415 takes precedence over 404. -/
theorem update_products_content_type_checked_before_lookup (db : DB)
    (i : Nat) (ct : Option String) (p : Payload)
    (h : ct ≠ some "application/json") :
    update_products db i ct p
      = ({ status := 415,
           body := Body.errorJson "Content-Type must be application/json",
           location := none }, db) := by
  rw [update_products, check_content_type_ne ct h]
  rfl

/-- Witness for C8: absent header and an empty store, where id 0 does
not exist, still answers 415, not 404. -/
theorem update_products_content_type_checked_before_lookup_witness :
    (none : Option String) ≠ some "application/json"
    ∧ DB.find ⟨[], 1⟩ 0 = none
    ∧ update_products ⟨[], 1⟩ 0 none ⟨some "n", some "e", some "a", none, none⟩
      = ({ status := 415,
           body := Body.errorJson "Content-Type must be application/json",
           location := none }, ⟨[], 1⟩) :=
  ⟨by decide, rfl, update_products_content_type_checked_before_lookup
    ⟨[], 1⟩ 0 none ⟨some "n", some "e", some "a", none, none⟩ (by decide)⟩

/-- C9: a PUT on an existing id whose body fails deserialization does
not answer 200 and does not reach the persistence update: the handler
answers 400 and the store is returned unchanged. -/
theorem update_products_bad_body_no_update (db : DB) (i : Nat)
    (a : Account) (p : Payload) (m : String) (hfind : db.find i = some a)
    (hdes : a.deserialize p = Except.error m) :
    (update_products db i (some "application/json") p).1.status ≠ 200
    ∧ update_products db i (some "application/json") p
      = ({ status := 400, body := Body.errorJson m, location := none }, db) := by
  have heq : update_products db i (some "application/json") p
      = ({ status := 400, body := Body.errorJson m, location := none }, db) := by
    rw [update_products, check_content_type_app_json]
    simp [hfind, hdes]
  exact ⟨by simp [heq], heq⟩

/-- Witness for C9: a body missing the required name field on a store
holding the account with id 1. -/
theorem update_products_bad_body_no_update_witness :
    DB.find ⟨[⟨1, "n", "e", "a", none, some "2020-01-01"⟩], 2⟩ 1
      = some ⟨1, "n", "e", "a", none, some "2020-01-01"⟩
    ∧ Account.deserialize ⟨1, "n", "e", "a", none, some "2020-01-01"⟩
        ⟨none, some "e2", some "a2", none, none⟩
      = Except.error "Invalid Account: missing name"
    ∧ ((update_products ⟨[⟨1, "n", "e", "a", none, some "2020-01-01"⟩], 2⟩ 1
          (some "application/json") ⟨none, some "e2", some "a2", none, none⟩).1.status ≠ 200
      ∧ update_products ⟨[⟨1, "n", "e", "a", none, some "2020-01-01"⟩], 2⟩ 1
          (some "application/json") ⟨none, some "e2", some "a2", none, none⟩
        = ({ status := 400,
             body := Body.errorJson "Invalid Account: missing name",
             location := none },
           ⟨[⟨1, "n", "e", "a", none, some "2020-01-01"⟩], 2⟩)) :=
  ⟨by decide, rfl, update_products_bad_body_no_update
    ⟨[⟨1, "n", "e", "a", none, some "2020-01-01"⟩], 2⟩ 1
    ⟨1, "n", "e", "a", none, some "2020-01-01"⟩
    ⟨none, some "e2", some "a2", none, none⟩
    "Invalid Account: missing name" (by decide) rfl⟩

/-- C7: a POST with the right content type and a valid body holding
name, email and address answers 201 with a Location header and a body
that is the full created Account as JSON, including the id generated by
the store counter and a date_joined value, defaulted to the creation
date when the body omits it. -/
theorem create_accounts_valid_201_location_and_body (db : DB) (p : Payload)
    (today : String) (n e ad : String) (hn : p.name = some n)
    (he : p.email = some e) (had : p.address = some ad) :
    ∃ a : Account,
      create_accounts db (some "application/json") p today
        = ({ status := 201, body := Body.jsonAccount a, location := some "/" },
           { accounts := db.accounts ++ [a], nextId := db.nextId + 1 })
      ∧ a.id = db.nextId
      ∧ a.date_joined = some (p.date_joined.getD today)
      ∧ a.name = n ∧ a.email = e ∧ a.address = ad := by
  cases hpn : p.phone_number with
  | none =>
    cases hdj : p.date_joined with
    | none =>
      refine ⟨⟨db.nextId, n, e, ad, none, some today⟩, ?_, rfl, rfl, rfl, rfl, rfl⟩
      rw [create_accounts, check_content_type_app_json]
      simp [Account.deserialize, hn, he, had, hpn, hdj, Account.empty, DB.create]
    | some d =>
      refine ⟨⟨db.nextId, n, e, ad, none, some d⟩, ?_, rfl, rfl, rfl, rfl, rfl⟩
      rw [create_accounts, check_content_type_app_json]
      simp [Account.deserialize, hn, he, had, hpn, hdj, Account.empty, DB.create]
  | some s =>
    cases hdj : p.date_joined with
    | none =>
      refine ⟨⟨db.nextId, n, e, ad, some s, some today⟩, ?_, rfl, rfl, rfl, rfl, rfl⟩
      rw [create_accounts, check_content_type_app_json]
      simp [Account.deserialize, hn, he, had, hpn, hdj, Account.empty, DB.create]
    | some d =>
      refine ⟨⟨db.nextId, n, e, ad, some s, some d⟩, ?_, rfl, rfl, rfl, rfl, rfl⟩
      rw [create_accounts, check_content_type_app_json]
      simp [Account.deserialize, hn, he, had, hpn, hdj, Account.empty, DB.create]

/-- Witness for C7: creating an account on an empty store, the body
omitting phone and join date. -/
theorem create_accounts_valid_201_location_and_body_witness :
    (⟨some "n", some "e", some "a", none, none⟩ : Payload).name = some "n"
    ∧ ∃ a : Account,
      create_accounts ⟨[], 1⟩ (some "application/json")
          ⟨some "n", some "e", some "a", none, none⟩ "2020-01-05"
        = ({ status := 201, body := Body.jsonAccount a, location := some "/" },
           { accounts := [] ++ [a], nextId := 1 + 1 })
      ∧ a.id = 1
      ∧ a.date_joined
        = some ((⟨some "n", some "e", some "a", none, none⟩ : Payload).date_joined.getD
            "2020-01-05")
      ∧ a.name = "n" ∧ a.email = "e" ∧ a.address = "a" :=
  ⟨rfl, create_accounts_valid_201_location_and_body ⟨[], 1⟩
    ⟨some "n", some "e", some "a", none, none⟩ "2020-01-05"
    "n" "e" "a" rfl rfl rfl⟩

/-- C10: every 201 answer of the POST handler carries a Location header
with the constant value of the service root, not the URL of the created
Account. -/
theorem create_accounts_location_is_root (db : DB) (ct : Option String)
    (p : Payload) (today : String)
    (h : (create_accounts db ct p today).1.status = 201) :
    (create_accounts db ct p today).1.location = some "/" := by
  by_cases hct : check_content_type ct "application/json" = true
  · cases hdes : Account.empty.deserialize p with
    | error m => simp [create_accounts, hct, hdes] at h
    | ok a => simp [create_accounts, hct, hdes, DB.create]
  · have hct' : check_content_type ct "application/json" = false := by
      simpa using hct
    simp [create_accounts, hct', unsupportedMediaType] at h

/-- Witness for C10: a concrete successful create. -/
theorem create_accounts_location_is_root_witness :
    (create_accounts ⟨[], 1⟩ (some "application/json")
        ⟨some "n", some "e", some "a", none, none⟩ "2020-01-01").1.status = 201
    ∧ (create_accounts ⟨[], 1⟩ (some "application/json")
        ⟨some "n", some "e", some "a", none, none⟩ "2020-01-01").1.location
      = some "/" :=
  ⟨by decide, create_accounts_location_is_root ⟨[], 1⟩
    (some "application/json") ⟨some "n", some "e", some "a", none, none⟩
    "2020-01-01" (by decide)⟩

end AccountService
